import Mathlib

/-! Shallow embedding of `tstats` (src/main.go), a terminal weather tool:
a cache-validated pipeline  check cache → fetch public IP → fetch
geolocation → fetch weather → display.  Network I/O, the filesystem and
JSON decoding are modelled explicitly: HTTP responses come from an
environment record, the two cache files are an explicit filesystem state,
and `encoding/json.Unmarshal` is an oracle `String → Option _` carried in
the environment.  Float64 values that merely pass through the program are
modelled as `Rat`.
-/

namespace Tstats

/-- Mirrors Go struct `GeoInfo` (src/main.go): the decoded ip-api.com
response. -/
structure GeoInfo where
  status : String
  country : String
  city : String
  lat : Rat
  lon : Rat
  isp : String
  query : String
  deriving Repr, DecidableEq

/-- Mirrors Go struct `CurrentUnits` (src/main.go). -/
structure CurrentUnits where
  temperature_2m : String
  weather_code : String
  deriving Repr, DecidableEq

/-- Mirrors Go struct `CurrentData` (src/main.go). -/
structure CurrentData where
  time : String
  temperature_2m : Rat
  weather_code : Int
  deriving Repr, DecidableEq

/-- Mirrors Go struct `WeatherResponse` (src/main.go): the decoded
open-meteo response. -/
structure WeatherResponse where
  latitude : Rat
  longitude : Rat
  current_units : CurrentUnits
  current : CurrentData
  deriving Repr, DecidableEq

/-- A cache file on disk: its raw bytes and its modification time
(seconds).  `checkCacheCmd` in the source never reads the mtime, but the
model keeps it so that age-based claims can be stated. -/
structure CacheFile where
  content : String
  mtime : Nat
  deriving Repr, DecidableEq

/-- The two cache files in the temporary directory:
`geoinfo_cache.json` and `weather_cache.json`.  `none` means the file is
absent (or unreadable: `os.ReadFile` failing is a miss either way). -/
structure FS where
  geoCache : Option CacheFile
  weatherCache : Option CacheFile
  deriving Repr, DecidableEq

/-- Observable world state threaded through the pipeline: the filesystem
plus a count of outbound network calls per endpoint (the Go code performs
these via `http.Get`; the counters make "no network call happens" a
provable statement). -/
structure World where
  fs : FS
  ipCalls : Nat
  geoCalls : Nat
  weatherCalls : Nat
  deriving Repr, DecidableEq

/-- Outcome of one `http.Get` plus `io.ReadAll` pair:
either a transport failure (the `http.Get` call itself errors), or a
response with a status code and a body, where `none` for the body models
`io.ReadAll` failing. -/
inductive HttpResult where
  | transportError (msg : String)
  | response (statusCode : Nat) (body : Option String)
  deriving Repr, DecidableEq

/-- The environment of one run: what each fixed endpoint would answer,
whether each best-effort cache write would fail (`os.WriteFile` error),
the current time used as mtime of written files, and the JSON decoding
oracles standing for `json.Unmarshal` into each Go struct. -/
structure Env where
  ipResp : HttpResult
  geoResp : String → HttpResult
  weatherResp : Rat → Rat → HttpResult
  geoWriteFails : Bool
  weatherWriteFails : Bool
  now : Nat
  parseGeo : String → Option GeoInfo
  parseWeather : String → Option WeatherResponse

/-- Error kinds carried by Go `error` values in the pipeline, with their
message texts. -/
inductive PipeError where
  | network (msg : String)
  | decode (msg : String)
  | geolocation (status : String)
  | weatherStatus (code : Nat)
  deriving Repr, DecidableEq

/-- Mirrors Go `cacheCheckResultMsg`: `miss` is `hasCache: false`, `hit`
carries the decoded records. -/
inductive CacheCheckResultMsg where
  | miss
  | hit (geo : GeoInfo) (weather : WeatherResponse)
  deriving Repr, DecidableEq

/-- Mirrors `checkCacheCmd` (src/main.go:267-305).  On force-refresh both
cache files are removed (`os.Remove`) and a miss is reported.  Otherwise:
read the geolocation file (absent/unreadable → miss), decode it
(failure → miss), require `status == "success"` (else miss), then read and
decode the weather file (absent/unreadable/undecodable → miss); only then
report a hit carrying both decoded records.  Note the source performs no
modification-time (TTL) comparison. -/
def checkCacheCmd (env : Env) (forceRefresh : Bool) (w : World) :
    World × CacheCheckResultMsg :=
  if forceRefresh then
    ({ w with fs := { geoCache := none, weatherCache := none } },
      CacheCheckResultMsg.miss)
  else
    match w.fs.geoCache with
    | none => (w, CacheCheckResultMsg.miss)
    | some gf =>
      match env.parseGeo gf.content with
      | none => (w, CacheCheckResultMsg.miss)
      | some geoInfo =>
        if geoInfo.status ≠ "success" then (w, CacheCheckResultMsg.miss)
        else
          match w.fs.weatherCache with
          | none => (w, CacheCheckResultMsg.miss)
          | some wf =>
            match env.parseWeather wf.content with
            | none => (w, CacheCheckResultMsg.miss)
            | some weatherResp =>
              (w, CacheCheckResultMsg.hit geoInfo weatherResp)

/-- Mirrors `getPublicIP` (src/main.go:337-348): one GET to the IP-echo
endpoint; a transport error or a body-read error is returned as an error;
otherwise the entire body becomes the address.  The source checks neither
the status code nor whether the body is empty, and does not trim. -/
def getPublicIP (env : Env) (w : World) : World × Except PipeError String :=
  let w := { w with ipCalls := w.ipCalls + 1 }
  match env.ipResp with
  | HttpResult.transportError m => (w, Except.error (PipeError.network m))
  | HttpResult.response _ none =>
      (w, Except.error (PipeError.network "read error"))
  | HttpResult.response _ (some body) => (w, Except.ok body)

/-- Mirrors `getGeoInfo` (src/main.go:350-373): one GET to the
geolocation endpoint for `ip`; transport or body-read errors abort.  The
raw body is then written to `geoinfo_cache.json` best-effort (a write
failure only logs a warning) BEFORE decoding; a decode failure aborts,
and a decoded `status != "success"` aborts with the geolocation error.
The status code of the HTTP response is not inspected. -/
def getGeoInfo (env : Env) (ip : String) (w : World) :
    World × Except PipeError GeoInfo :=
  let w := { w with geoCalls := w.geoCalls + 1 }
  match env.geoResp ip with
  | HttpResult.transportError m => (w, Except.error (PipeError.network m))
  | HttpResult.response _ none =>
      (w, Except.error (PipeError.network "error reading API response body"))
  | HttpResult.response _ (some body) =>
    let w :=
      if env.geoWriteFails then w
      else { w with fs := { w.fs with geoCache := some ⟨body, env.now⟩ } }
    match env.parseGeo body with
    | none => (w, Except.error (PipeError.decode "geo decode error"))
    | some geoInfo =>
      if geoInfo.status = "success" then (w, Except.ok geoInfo)
      else (w, Except.error (PipeError.geolocation geoInfo.status))

/-- Mirrors `getWeatherInfo` (src/main.go:375-398): one GET to the
forecast endpoint for the record's coordinates; transport errors abort,
then a non-200 status aborts, then a body-read error aborts.  The raw
body is written to `weather_cache.json` best-effort before decoding; a
decode failure aborts; otherwise the decoded record is returned. -/
def getWeatherInfo (env : Env) (geoInfo : GeoInfo) (w : World) :
    World × Except PipeError WeatherResponse :=
  let w := { w with weatherCalls := w.weatherCalls + 1 }
  match env.weatherResp geoInfo.lat geoInfo.lon with
  | HttpResult.transportError m => (w, Except.error (PipeError.network m))
  | HttpResult.response code bodyOpt =>
    if code ≠ 200 then (w, Except.error (PipeError.weatherStatus code))
    else
      match bodyOpt with
      | none =>
          (w, Except.error (PipeError.network "error reading API response body"))
      | some body =>
        let w :=
          if env.weatherWriteFails then w
          else { w with fs := { w.fs with weatherCache := some ⟨body, env.now⟩ } }
        match env.parseWeather body with
        | none =>
            (w, Except.error (PipeError.decode "error decoding weather data"))
        | some weatherData => (w, Except.ok weatherData)

/-- Terminal state of a run, as held by the Bubble Tea `model`: `done`
with the two records (`m.done = true`), or `failed` with the error
(`m.err` set, `tea.Quit`). -/
inductive Outcome where
  | done (geo : GeoInfo) (weather : WeatherResponse)
  | failed (e : PipeError)
  deriving Repr, DecidableEq

/-- The cache-miss resolver chain, as sequenced by `model.Update`
(src/main.go:142-233): `fetchPublicIPCmd` → on `ipFetchedMsg`
`fetchGeoInfoCmd` → on `geoInfoFetchedMsg` `fetchWeatherInfoCmd` → on
`weatherFetchedMsg` done.  Any `errorMsg` sets `m.err` and quits, so an
error short-circuits every later stage. -/
def resolveChain (env : Env) (w : World) : World × Outcome :=
  match getPublicIP env w with
  | (w, Except.error e) => (w, Outcome.failed e)
  | (w, Except.ok ip) =>
    match getGeoInfo env ip w with
    | (w, Except.error e) => (w, Outcome.failed e)
    | (w, Except.ok geoInfo) =>
      match getWeatherInfo env geoInfo w with
      | (w, Except.error e) => (w, Outcome.failed e)
      | (w, Except.ok weatherData) => (w, Outcome.done geoInfo weatherData)

/-- One whole run: `model.Init` fires `checkCacheCmd`; on
`cacheCheckResultMsg` with `hasCache` the model is done with the cached
records, otherwise `model.Update` starts the resolver chain. -/
def runPipeline (env : Env) (forceRefresh : Bool) (w : World) :
    World × Outcome :=
  match checkCacheCmd env forceRefresh w with
  | (w, CacheCheckResultMsg.hit geoInfo weatherData) =>
      (w, Outcome.done geoInfo weatherData)
  | (w, CacheCheckResultMsg.miss) => resolveChain env w

/-- Renders a `Rat` the way `fmt.Sprintf` with verb `%.1f` renders the
float64 values arising in this development (one digit after the decimal
point, rounding half away from zero; all temperatures compared in the
claims are exact one-decimal values, where every rounding convention
agrees). -/
def formatFixed1 (t : Rat) : String :=
  let sign := if t.num < 0 then "-" else ""
  let n : Nat := (t.num.natAbs * 10 + t.den / 2) / t.den
  sign ++ toString (n / 10) ++ "." ++ toString (n % 10)

/-- Message text of a pipeline error, mirroring the `fmt.Errorf` texts in
src/main.go. -/
def errorText : PipeError → String
  | PipeError.network m => m
  | PipeError.decode m => m
  | PipeError.geolocation s => "geolocation API failed with status: " ++ s
  | PipeError.weatherStatus c =>
      "weather API returned an unexpected status: " ++ toString c

/-- Mirrors `model.View` (src/main.go:235-263) at a terminal state,
stripped of lipgloss styling: on error, the error line; when done, the
city and the temperature formatted `%.1f` with the `°C` suffix. -/
def view : Outcome → String
  | Outcome.failed e => "✗ Error: " ++ errorText e ++ "\n"
  | Outcome.done geoInfo weatherData =>
      "\n" ++ geoInfo.city ++ " — " ++
        formatFixed1 weatherData.current.temperature_2m ++ "°C\n"

/-- The cache TTL.  Modelled from the spec: the source's `checkCacheCmd`
contains no TTL constant at all; the README and the spec state cache
entries are considered invalid after 30 minutes (1800 seconds). -/
def cacheTTL : Nat := 1800

/-! Concrete sample data used to evaluate the model on specific runs.
The string "GEO" stands for the raw ip-api.com response bytes that decode
to `geoSample`, and "WX" for the open-meteo bytes that decode to
`weatherSample`; "FAILGEO" decodes to a record with status "fail". -/

/-- The rational 21.3 = 213/10, written with explicit numerator and
denominator so that it is kernel-computable. -/
def temp213 : Rat := ⟨213, 10, by decide, by decide⟩

/-- The rational 10, kernel-computable form. -/
def lat10 : Rat := ⟨10, 1, by decide, by decide⟩

/-- The rational 20, kernel-computable form. -/
def lon20 : Rat := ⟨20, 1, by decide, by decide⟩

/-- A successful geolocation record: the spec's fresh-run scenario
(status "success", city "Testville", lat 10.0, lon 20.0). -/
def geoSample : GeoInfo :=
  ⟨"success", "Testland", "Testville", lat10, lon20, "TestISP", "203.0.113.5"⟩

/-- A weather record with current temperature 21.3 °C and weather code 2,
as in the spec's fresh-run scenario. -/
def weatherSample : WeatherResponse :=
  ⟨lat10, lon20, ⟨"°C", "wmo code"⟩, ⟨"2026-10-11T12:00", temp213, 2⟩⟩

/-- A geolocation record the provider marked as failed. -/
def failGeo : GeoInfo := ⟨"fail", "", "", 0, 0, "", "203.0.113.5"⟩

/-- Sample decoding oracle for geolocation bytes. -/
def parseGeoSample : String → Option GeoInfo := fun s =>
  if s = "GEO" then some geoSample
  else if s = "FAILGEO" then some failGeo
  else none

/-- Sample decoding oracle for weather bytes. -/
def parseWeatherSample : String → Option WeatherResponse := fun s =>
  if s = "WX" then some weatherSample else none

/-- Environment for the fresh-run scenario: the IP echo answers
"203.0.113.5", the geolocation endpoint answers the bytes "GEO" for that
IP, the forecast endpoint answers the bytes "WX" for coordinates
(10, 20); both cache writes succeed; current time 7777 s. -/
def freshEnv : Env where
  ipResp := HttpResult.response 200 (some "203.0.113.5")
  geoResp := fun ip =>
    if ip = "203.0.113.5" then HttpResult.response 200 (some "GEO")
    else HttpResult.transportError "unexpected ip"
  weatherResp := fun la lo =>
    if la = lat10 ∧ lo = lon20 then HttpResult.response 200 (some "WX")
    else HttpResult.transportError "unexpected coordinates"
  geoWriteFails := false
  weatherWriteFails := false
  now := 7777
  parseGeo := parseGeoSample
  parseWeather := parseWeatherSample

/-- World with no cache files and no network calls yet. -/
def emptyWorld : World := ⟨⟨none, none⟩, 0, 0, 0⟩

/-- World whose two cache files were written at time 0, far in the past
relative to `staleEnv.now`. -/
def staleWorld : World := ⟨⟨some ⟨"GEO", 0⟩, some ⟨"WX", 0⟩⟩, 0, 0, 0⟩

/-- Environment whose current time makes `staleWorld`'s cache files
10000 s old, far beyond the 1800 s TTL. -/
def staleEnv : Env := { freshEnv with now := 10000 }

/-- World holding only a valid geolocation cache file, written at the
very time `freshEnv` reads it (age 0); no weather cache file. -/
def geoOnlyWorld : World := ⟨⟨some ⟨"GEO", 7777⟩, none⟩, 0, 0, 0⟩

/-- World holding both a valid geolocation cache file and a decodable
weather cache file. -/
def hitWorld : World := ⟨⟨some ⟨"GEO", 7777⟩, some ⟨"WX", 7777⟩⟩, 0, 0, 0⟩

/-- A second both-caches-valid world with different mtimes and nonzero
call counters. -/
def hitWorld2 : World := ⟨⟨some ⟨"GEO", 1⟩, some ⟨"WX", 2⟩⟩, 3, 4, 5⟩

/-- Environment in which the geolocation provider reports a logical
failure: the bytes "FAILGEO" decode to status "fail". -/
def geoFailEnv : Env :=
  { freshEnv with geoResp := fun _ => HttpResult.response 200 (some "FAILGEO") }

/-- Environment in which the weather response body fails to decode. -/
def wxDecodeFailEnv : Env := { freshEnv with parseWeather := fun _ => none }

/-- Environment whose IP echo answers HTTP 500 with an empty body. -/
def badIpEnv : Env := { freshEnv with ipResp := HttpResult.response 500 (some "") }

/-- Environment whose IP echo answers a body padded with whitespace. -/
def wsIpEnv : Env :=
  { freshEnv with ipResp := HttpResult.response 200 (some " 1.2.3.4\n") }

/-- Environment whose IP echo transport fails. -/
def ipDownEnv : Env := { freshEnv with ipResp := HttpResult.transportError "dial tcp: down" }

end Tstats

namespace Tstats

/-! Claim theorems.  Each theorem below settles one claim of the
specification against the embedded program. -/

/-- C1 (code bug evidence): `checkCacheCmd` accepts a cache file whose
age (now − mtime = 10000 s) exceeds the 30-minute TTL by far more than
one second as a full cache hit: the source never compares modification
times, contradicting the README's statement that the caches "are
considered invalid after 30 minutes". -/
theorem stale_cache_accepted_as_hit :
    staleWorld.fs.geoCache = some ⟨"GEO", 0⟩ ∧
    staleWorld.fs.weatherCache = some ⟨"WX", 0⟩ ∧
    cacheTTL + 1 ≤ staleEnv.now - 0 ∧
    checkCacheCmd staleEnv false staleWorld =
      (staleWorld, CacheCheckResultMsg.hit geoSample weatherSample) :=
  ⟨rfl, rfl, by decide, by decide⟩

/-- C2 (counterexample): a run whose geolocation cache holds a valid
entry (decodes with status "success", age 0, hence younger than any TTL)
but whose weather cache is absent performs a public-IP network call and a
geolocation network call — refuting the claim that a valid geolocation
cache alone suppresses the public-IP call. -/
theorem geo_only_cache_still_fetches_ip :
    freshEnv.parseGeo "GEO" = some geoSample ∧
    geoSample.status = "success" ∧
    geoOnlyWorld.fs.geoCache = some ⟨"GEO", 7777⟩ ∧
    freshEnv.now - 7777 = 0 ∧
    geoOnlyWorld.ipCalls = 0 ∧
    (runPipeline freshEnv false geoOnlyWorld).1.ipCalls = 1 ∧
    (runPipeline freshEnv false geoOnlyWorld).1.geoCalls = 1 :=
  ⟨by decide, rfl, rfl, rfl, rfl, by decide, by decide⟩

/-- C2 (amended): when BOTH the geolocation cache decodes with status
"success" AND the weather cache decodes, a non-force-refresh run makes
zero network calls (the world, call counters included, is returned
unchanged) and the records delivered are exactly the decodings of the
cached bytes. -/
theorem cache_hit_zero_network (env : Env) (w : World) (gf wf : CacheFile)
    (g : GeoInfo) (wd : WeatherResponse)
    (hg : w.fs.geoCache = some gf) (hpg : env.parseGeo gf.content = some g)
    (hs : g.status = "success")
    (hw : w.fs.weatherCache = some wf)
    (hpw : env.parseWeather wf.content = some wd) :
    runPipeline env false w = (w, Outcome.done g wd) := by
  unfold runPipeline checkCacheCmd
  simp [hg, hpg, hs, hw, hpw]

/-- C2 (witness): the amended theorem applied to a world holding both
valid cache files. -/
theorem cache_hit_zero_network_witness :
    runPipeline freshEnv false hitWorld =
      (hitWorld, Outcome.done geoSample weatherSample) :=
  cache_hit_zero_network freshEnv hitWorld ⟨"GEO", 7777⟩ ⟨"WX", 7777⟩
    geoSample weatherSample rfl (by decide) rfl rfl (by decide)

/-- C3: for any geolocation response body, the raw bytes land in the
geolocation cache file (write-before-decode: the file is written even
though the decoded status is not "success" and the call errors), and any
later non-force cache read of a filesystem holding those bytes is a miss. -/
theorem geo_fail_persisted_never_hit (env : Env) (ip body : String) (c : Nat)
    (w : World) (g : GeoInfo)
    (hresp : env.geoResp ip = HttpResult.response c (some body))
    (hwrite : env.geoWriteFails = false)
    (hparse : env.parseGeo body = some g) (hs : g.status ≠ "success") :
    (getGeoInfo env ip w).1.fs.geoCache = some ⟨body, env.now⟩ ∧
    (getGeoInfo env ip w).2 = Except.error (PipeError.geolocation g.status) ∧
    ∀ w' : World, w'.fs.geoCache = some ⟨body, env.now⟩ →
      (checkCacheCmd env false w').2 = CacheCheckResultMsg.miss := by
  refine ⟨?_, ?_, ?_⟩
  · unfold getGeoInfo
    rw [hresp]
    simp [hwrite, hparse, hs]
  · unfold getGeoInfo
    rw [hresp]
    simp [hwrite, hparse, hs]
  · intro w' hw'
    unfold checkCacheCmd
    simp [hw', hparse, hs]

/-- C3 (witness): the theorem applied to the provider answering
"FAILGEO", which decodes to status "fail". -/
theorem geo_fail_persisted_never_hit_witness :
    (getGeoInfo geoFailEnv "203.0.113.5" emptyWorld).1.fs.geoCache =
      some ⟨"FAILGEO", 7777⟩ ∧
    (getGeoInfo geoFailEnv "203.0.113.5" emptyWorld).2 =
      Except.error (PipeError.geolocation "fail") ∧
    (checkCacheCmd geoFailEnv false
      ⟨⟨some ⟨"FAILGEO", 7777⟩, none⟩, 0, 0, 0⟩).2 = CacheCheckResultMsg.miss :=
  ⟨(geo_fail_persisted_never_hit geoFailEnv "203.0.113.5" "FAILGEO" 200
      emptyWorld failGeo rfl rfl (by decide) (by decide)).1,
   (geo_fail_persisted_never_hit geoFailEnv "203.0.113.5" "FAILGEO" 200
      emptyWorld failGeo rfl rfl (by decide) (by decide)).2.1,
   (geo_fail_persisted_never_hit geoFailEnv "203.0.113.5" "FAILGEO" 200
      emptyWorld failGeo rfl rfl (by decide) (by decide)).2.2
      ⟨⟨some ⟨"FAILGEO", 7777⟩, none⟩, 0, 0, 0⟩ rfl⟩

/-- C4: a force-refresh run removes both cache files and reports a miss,
and the whole run equals the resolver chain started on the cleared
filesystem — so both cache files are absent before any resolver runs and
the check never reports a hit in that invocation. -/
theorem force_refresh_clears_then_misses (env : Env) (w : World) :
    checkCacheCmd env true w =
      ({ w with fs := ⟨none, none⟩ }, CacheCheckResultMsg.miss) ∧
    runPipeline env true w = resolveChain env { w with fs := ⟨none, none⟩ } :=
  ⟨rfl, rfl⟩

/-- Helper: when the geolocation provider answers a body that decodes to
a non-"success" status, `getGeoInfo` errors with the geolocation error
and leaves the weather-call counter untouched. -/
theorem getGeoInfo_fail_status (env : Env) (ip body : String) (c : Nat)
    (w : World) (g : GeoInfo)
    (hresp : env.geoResp ip = HttpResult.response c (some body))
    (hparse : env.parseGeo body = some g) (hs : g.status ≠ "success") :
    (getGeoInfo env ip w).2 = Except.error (PipeError.geolocation g.status) ∧
    (getGeoInfo env ip w).1.weatherCalls = w.weatherCalls := by
  unfold getGeoInfo
  rw [hresp]
  cases hwf : env.geoWriteFails <;> simp [hparse, hs]

/-- Helper: `getPublicIP` always returns the input world with only the
IP-call counter incremented. -/
theorem getPublicIP_fst (env : Env) (w : World) :
    (getPublicIP env w).1 = { w with ipCalls := w.ipCalls + 1 } := by
  unfold getPublicIP
  cases env.ipResp with
  | transportError m => rfl
  | response c b =>
    cases b with
    | none => rfl
    | some body => rfl

/-- Helper: `getGeoInfo` increments exactly the geolocation-call
counter; it never touches the IP or weather counters, whatever the
response, write outcome or decode outcome. -/
theorem getGeoInfo_fst_calls (env : Env) (ip : String) (w : World) :
    (getGeoInfo env ip w).1.geoCalls = w.geoCalls + 1 ∧
    (getGeoInfo env ip w).1.ipCalls = w.ipCalls ∧
    (getGeoInfo env ip w).1.weatherCalls = w.weatherCalls := by
  unfold getGeoInfo
  cases env.geoResp ip with
  | transportError m => exact ⟨rfl, rfl, rfl⟩
  | response c b =>
    cases b with
    | none => exact ⟨rfl, rfl, rfl⟩
    | some body =>
      dsimp only
      cases env.parseGeo body with
      | none => cases env.geoWriteFails <;> exact ⟨rfl, rfl, rfl⟩
      | some g =>
        dsimp only
        by_cases hst : g.status = "success"
        · rw [if_pos hst]
          cases env.geoWriteFails <;> exact ⟨rfl, rfl, rfl⟩
        · rw [if_neg hst]
          cases env.geoWriteFails <;> exact ⟨rfl, rfl, rfl⟩

/-- C5: every error from any resolver stage aborts the remaining stages
at once and becomes the terminal output.  Whatever error `getPublicIP`
returns ends the chain there (no geolocation or weather call: those
counters are unchanged); whatever error `getGeoInfo` returns — transport,
body-read, decode, or non-"success" status — ends the chain with no
weather call; whatever error `getWeatherInfo` returns — transport,
non-200 status, body-read or decode — ends the chain with that error.
In each case the outcome is `failed` (never a partial `done`) and `view`
renders the error as the run's output.  The last two conjuncts
specialise this: an IP transport failure, and the spec's scenario of a
geolocation response decoding to status "fail", which aborts with the
`GeolocationError` before any weather call. -/
theorem errors_abort_pipeline (env : Env) (w : World) :
    (∀ w1 e, getPublicIP env w = (w1, Except.error e) →
      resolveChain env w = (w1, Outcome.failed e) ∧
      w1.geoCalls = w.geoCalls ∧ w1.weatherCalls = w.weatherCalls ∧
      view (Outcome.failed e) = "✗ Error: " ++ errorText e ++ "\n") ∧
    (∀ w1 ip w2 e, getPublicIP env w = (w1, Except.ok ip) →
      getGeoInfo env ip w1 = (w2, Except.error e) →
      resolveChain env w = (w2, Outcome.failed e) ∧
      w2.weatherCalls = w.weatherCalls ∧
      view (Outcome.failed e) = "✗ Error: " ++ errorText e ++ "\n") ∧
    (∀ w1 ip w2 g w3 e, getPublicIP env w = (w1, Except.ok ip) →
      getGeoInfo env ip w1 = (w2, Except.ok g) →
      getWeatherInfo env g w2 = (w3, Except.error e) →
      resolveChain env w = (w3, Outcome.failed e) ∧
      view (Outcome.failed e) = "✗ Error: " ++ errorText e ++ "\n") ∧
    (∀ m, env.ipResp = HttpResult.transportError m →
      resolveChain env w =
        ({ w with ipCalls := w.ipCalls + 1 },
          Outcome.failed (PipeError.network m)) ∧
      view (resolveChain env w).2 = "✗ Error: " ++ m ++ "\n") ∧
    (∀ cip ip c body g, env.ipResp = HttpResult.response cip (some ip) →
      env.geoResp ip = HttpResult.response c (some body) →
      env.parseGeo body = some g → g.status = "fail" →
      (resolveChain env w).2 = Outcome.failed (PipeError.geolocation "fail") ∧
      (resolveChain env w).1.weatherCalls = w.weatherCalls ∧
      view (resolveChain env w).2 =
        "✗ Error: geolocation API failed with status: fail\n") := by
  refine ⟨?_, ?_, ?_, ?_, ?_⟩
  · intro w1 e h
    have hw1 : w1 = { w with ipCalls := w.ipCalls + 1 } := by
      have hh := congrArg Prod.fst h
      rw [getPublicIP_fst] at hh
      exact hh.symm
    subst hw1
    refine ⟨?_, rfl, rfl, rfl⟩
    unfold resolveChain
    rw [h]
  · intro w1 ip w2 e h1 h2
    have hw1 : w1 = { w with ipCalls := w.ipCalls + 1 } := by
      have hh := congrArg Prod.fst h1
      rw [getPublicIP_fst] at hh
      exact hh.symm
    have hw2 : (getGeoInfo env ip w1).1 = w2 := congrArg Prod.fst h2
    refine ⟨?_, ?_, rfl⟩
    · unfold resolveChain
      rw [h1]
      dsimp only
      rw [h2]
    · rw [← hw2, (getGeoInfo_fst_calls env ip w1).2.2, hw1]
  · intro w1 ip w2 g w3 e h1 h2 h3
    refine ⟨?_, rfl⟩
    unfold resolveChain
    rw [h1]
    dsimp only
    rw [h2]
    dsimp only
    rw [h3]
  · intro m hm
    have hres : resolveChain env w =
        ({ w with ipCalls := w.ipCalls + 1 },
          Outcome.failed (PipeError.network m)) := by
      unfold resolveChain getPublicIP
      rw [hm]
    refine ⟨hres, ?_⟩
    rw [hres]
    rfl
  · intro cip ip c body g hip hgeo hparse hfail
    have h1 : getPublicIP env w =
        ({ w with ipCalls := w.ipCalls + 1 }, Except.ok ip) := by
      unfold getPublicIP
      rw [hip]
    have hs : g.status ≠ "success" := by rw [hfail]; decide
    have h2 := getGeoInfo_fail_status env ip body c
      { w with ipCalls := w.ipCalls + 1 } g hgeo hparse hs
    have hres : (resolveChain env w).2 =
          Outcome.failed (PipeError.geolocation g.status) ∧
        (resolveChain env w).1.weatherCalls = w.weatherCalls := by
      unfold resolveChain
      rw [h1]
      dsimp only
      rcases hgg : getGeoInfo env ip { w with ipCalls := w.ipCalls + 1 }
        with ⟨w2, r2⟩
      rw [hgg] at h2
      have hr2 : r2 = Except.error (PipeError.geolocation g.status) := h2.1
      have hw2 : w2.weatherCalls = w.weatherCalls := h2.2
      rw [hr2]
      exact ⟨rfl, hw2⟩
    refine ⟨by rw [hres.1, hfail], hres.2, ?_⟩
    rw [hres.1, hfail]
    rfl

/-- C5 (witness): the geolocation-stage case applied to the provider
answering "FAILGEO" (status "fail": the chain stops with the
geolocation error, weather counter 0) and the weather-stage case applied
to an environment whose weather body fails to decode (the chain ends
with the decode error after all three calls). -/
theorem errors_abort_pipeline_witness :
    resolveChain geoFailEnv emptyWorld =
      (⟨⟨some ⟨"FAILGEO", 7777⟩, none⟩, 1, 1, 0⟩,
        Outcome.failed (PipeError.geolocation "fail")) ∧
    resolveChain wxDecodeFailEnv emptyWorld =
      (⟨⟨some ⟨"GEO", 7777⟩, some ⟨"WX", 7777⟩⟩, 1, 1, 1⟩,
        Outcome.failed (PipeError.decode "error decoding weather data")) :=
  ⟨((errors_abort_pipeline geoFailEnv emptyWorld).2.1
      ⟨⟨none, none⟩, 1, 0, 0⟩ "203.0.113.5"
      ⟨⟨some ⟨"FAILGEO", 7777⟩, none⟩, 1, 1, 0⟩
      (PipeError.geolocation "fail") rfl rfl).1,
   ((errors_abort_pipeline wxDecodeFailEnv emptyWorld).2.2.1
      ⟨⟨none, none⟩, 1, 0, 0⟩ "203.0.113.5"
      ⟨⟨some ⟨"GEO", 7777⟩, none⟩, 1, 1, 0⟩ geoSample
      ⟨⟨some ⟨"GEO", 7777⟩, some ⟨"WX", 7777⟩⟩, 1, 1, 1⟩
      (PipeError.decode "error decoding weather data") rfl rfl rfl).1⟩

/-- C6 (counterexample): the IP echo answers HTTP 500 with an empty
body — a non-2xx status AND an empty body — yet `getPublicIP` returns
`Except.ok ""`, not a `NetworkError`: the source inspects neither the
status code nor the body length. -/
theorem non2xx_and_empty_body_accepted :
    badIpEnv.ipResp = HttpResult.response 500 (some "") ∧
    (getPublicIP badIpEnv emptyWorld).2 = Except.ok "" :=
  ⟨rfl, rfl⟩

/-- C6 (amended): a public-IP attempt aborts the pipeline with a
`NetworkError` exactly on a transport failure or a body-read failure;
whenever a body is obtained, whatever the status code or body, it is
accepted as the address. -/
theorem ip_error_only_on_transport_or_read (env : Env) (w : World) :
    (∀ m, env.ipResp = HttpResult.transportError m →
      (getPublicIP env w).2 = Except.error (PipeError.network m) ∧
      (resolveChain env w).2 = Outcome.failed (PipeError.network m)) ∧
    (∀ c, env.ipResp = HttpResult.response c none →
      (getPublicIP env w).2 = Except.error (PipeError.network "read error") ∧
      (resolveChain env w).2 =
        Outcome.failed (PipeError.network "read error")) ∧
    (∀ c body, env.ipResp = HttpResult.response c (some body) →
      (getPublicIP env w).2 = Except.ok body) := by
  refine ⟨?_, ?_, ?_⟩
  · intro m hm
    constructor
    · unfold getPublicIP
      rw [hm]
    · unfold resolveChain getPublicIP
      rw [hm]
  · intro c hc
    constructor
    · unfold getPublicIP
      rw [hc]
    · unfold resolveChain getPublicIP
      rw [hc]
  · intro c body hb
    unfold getPublicIP
    rw [hb]

/-- C6 (witness): the amended theorem's transport-failure case at a
concrete environment. -/
theorem ip_error_only_on_transport_or_read_witness :
    (getPublicIP ipDownEnv emptyWorld).2 =
      Except.error (PipeError.network "dial tcp: down") ∧
    (resolveChain ipDownEnv emptyWorld).2 =
      Outcome.failed (PipeError.network "dial tcp: down") :=
  (ip_error_only_on_transport_or_read ipDownEnv emptyWorld).1 "dial tcp: down" rfl

/-- C7 (counterexample): a response body padded with whitespace is
returned exactly as received — `getPublicIP` performs no trimming, so the
returned address differs from the trimmed body the claim prescribes. -/
theorem ip_body_not_trimmed :
    wsIpEnv.ipResp = HttpResult.response 200 (some " 1.2.3.4\n") ∧
    (getPublicIP wsIpEnv emptyWorld).2 = Except.ok " 1.2.3.4\n" ∧
    (" 1.2.3.4\n" : String) ≠ "1.2.3.4" :=
  ⟨rfl, rfl, by decide⟩

/-- C7 (amended): every successful public-IP resolution returns the
entire response body untouched (no whitespace trimming). -/
theorem ip_returns_entire_body_as_is (env : Env) (w : World) (c : Nat)
    (body : String) (h : env.ipResp = HttpResult.response c (some body)) :
    (getPublicIP env w).2 = Except.ok body := by
  unfold getPublicIP
  rw [h]

/-- C7 (witness): the amended theorem at the whitespace-padded body. -/
theorem ip_returns_entire_body_as_is_witness :
    (getPublicIP wsIpEnv emptyWorld).2 = Except.ok " 1.2.3.4\n" :=
  ip_returns_entire_body_as_is wsIpEnv emptyWorld 200 " 1.2.3.4\n" rfl

/-- C8: for every environment, a failing cache write changes neither
stage's returned value: `getGeoInfo` and `getWeatherInfo` return exactly
what they return when the write succeeds, so a write failure never aborts
the pipeline. -/
theorem cache_write_failure_nonfatal (env : Env) (ip : String) (g : GeoInfo)
    (w : World) :
    (getGeoInfo { env with geoWriteFails := true } ip w).2 =
      (getGeoInfo { env with geoWriteFails := false } ip w).2 ∧
    (getWeatherInfo { env with weatherWriteFails := true } g w).2 =
      (getWeatherInfo { env with weatherWriteFails := false } g w).2 := by
  constructor
  · unfold getGeoInfo
    cases env.geoResp ip with
    | transportError m => rfl
    | response code bodyOpt =>
      cases bodyOpt with
      | none => rfl
      | some body =>
        dsimp only
        cases env.parseGeo body with
        | none => rfl
        | some g2 => by_cases hst : g2.status = "success" <;> simp [hst]
  · unfold getWeatherInfo
    cases env.weatherResp g.lat g.lon with
    | transportError m => rfl
    | response code bodyOpt =>
      dsimp only
      by_cases hc : code ≠ 200
      · simp only [if_pos hc]
      · simp only [if_neg hc]
        cases bodyOpt with
        | none => rfl
        | some body =>
          dsimp only
          cases env.parseWeather body with
          | none => rfl
          | some wd => rfl

/-- C9: a fresh run with no cache files, the IP echoing "203.0.113.5",
geolocation success at Testville (10.0, 20.0) and weather 21.3 °C with
code 2 finishes done with those records, both cache files exist
afterwards, and the rendered output reports "Testville — 21.3°C". -/
theorem fresh_run_scenario :
    emptyWorld.fs.geoCache = none ∧ emptyWorld.fs.weatherCache = none ∧
    runPipeline freshEnv false emptyWorld =
      ({ fs := ⟨some ⟨"GEO", 7777⟩, some ⟨"WX", 7777⟩⟩,
         ipCalls := 1, geoCalls := 1, weatherCalls := 1 },
        Outcome.done geoSample weatherSample) ∧
    geoSample.city = "Testville" ∧
    weatherSample.current.temperature_2m = 213 / 10 ∧
    weatherSample.current.weather_code = 2 ∧
    view (Outcome.done geoSample weatherSample) = "\nTestville — 21.3°C\n" := by
  refine ⟨rfl, rfl, by decide, rfl, ?_, rfl, by decide⟩
  show temp213 = 213 / 10
  have h : temp213 = Rat.mk' 213 10 := rfl
  rw [h, Rat.mk'_eq_divInt]
  norm_num [Rat.divInt_eq_div]

/-- Helper: without force-refresh, `checkCacheCmd` returns the world it
was given on every branch — it performs no write or deletion. -/
theorem checkCacheCmd_false_fst (env : Env) (w : World) :
    (checkCacheCmd env false w).1 = w := by
  unfold checkCacheCmd
  rw [if_neg (by decide)]
  repeat' split
  all_goals rfl

/-- C10: on the cache-hit path of a non-force-refresh run the whole run
returns the starting world untouched: both cache files keep their exact
contents, mtimes and presence, and no network call is made. -/
theorem cache_hit_frame (env : Env) (w : World) (g : GeoInfo)
    (wd : WeatherResponse)
    (h : (checkCacheCmd env false w).2 = CacheCheckResultMsg.hit g wd) :
    runPipeline env false w = (w, Outcome.done g wd) := by
  have hf := checkCacheCmd_false_fst env w
  unfold runPipeline
  rcases hcc : checkCacheCmd env false w with ⟨w1, r⟩
  rw [hcc] at h hf
  have hr : r = CacheCheckResultMsg.hit g wd := h
  have hw1 : w1 = w := hf
  subst hr hw1
  rfl

/-- C10 (witness): the frame theorem at a world with both caches valid
and nonzero counters. -/
theorem cache_hit_frame_witness :
    runPipeline freshEnv false hitWorld2 =
      (hitWorld2, Outcome.done geoSample weatherSample) :=
  cache_hit_frame freshEnv hitWorld2 geoSample weatherSample (by decide)

end Tstats
